import Mathlib

/-!
Verification of `summarize_all_runs.py`: a batch summarizer that turns
per-run resource-usage tables and request logs into one trend-summary row
per run.  Floating-point values are modelled as rationals (`ℚ`); a Python
`NaN` (or an unparseable cell) is `Option.none`; a raised exception is the
`Except.error` case.  The two external numeric routines the script calls
(`math.sqrt` and the standard normal CDF `norm.cdf`) are threaded as
function parameters `sqrtF` and `Phi`, so every definition stays
executable and every statement is parametric in them.
-/

namespace Summarize

deriving instance DecidableEq for Except

/-- `np.sign` on an exact value: 1, -1 or 0. -/
def sgn (q : ℚ) : ℤ :=
  if 0 < q then 1 else if q < 0 then -1 else 0

/-- All ordered pairs (i < j by position) of a list. -/
def pairsOf {β : Type} : List β → List (β × β)
  | [] => []
  | a :: r => (r.map (fun b => (a, b))) ++ pairsOf r

/-- The Mann–Kendall statistic S as the source computes it:
`for k in range(n-1): S += np.sign(y[k+1:] - y[k]).sum()`. -/
def mkS : List ℚ → ℤ
  | [] => 0
  | a :: r => (r.map (fun b => sgn (b - a))).sum + mkS r

/-- Multiplicity of each distinct value, as `np.unique(y, return_counts=True)`
produces (summation below is order-insensitive, so first-occurrence order
is used in place of sorted order). -/
def tieCounts (l : List ℚ) : List ℕ :=
  l.dedup.map (fun v => l.count v)

/-- `np.sum(counts * (counts - 1) * (2 * counts + 5))`. -/
def tieTerm (l : List ℚ) : ℤ :=
  ((tieCounts l).map (fun (k : ℕ) => ((k : ℤ) * ((k : ℤ) - 1) * (2 * (k : ℤ) + 5)))).sum

/-- `varS = (n * (n - 1) * (2 * n + 5) - tie_term) / 18.0`. -/
def varS (l : List ℚ) : ℚ :=
  let n : ℤ := l.length
  ((n * (n - 1) * (2 * n + 5) - tieTerm l : ℤ) : ℚ) / 18

/-- `mann_kendall_pvalue` from the source.  `none` models the `NaN` return,
entries of `y` that are `none` model `NaN` inputs removed by
`y[~np.isnan(y)]`. -/
def mann_kendall_pvalue {α : Type} [LinearOrderedField α]
    (sqrtF : ℚ → α) (Phi : α → α) (y : List (Option ℚ)) : Option α :=
  let v := y.filterMap id
  if v.length < 3 then none
  else
    let S := mkS v
    let vs := varS v
    if vs ≤ 0 then some 1
    else
      let z : α :=
        if 0 < S then ((S : α) - 1) / sqrtF vs
        else if S < 0 then ((S : α) + 1) / sqrtF vs
        else 0
      some (2 * (1 - Phi |z|))

/-- The reference Mann–Kendall definition, written from the specification:
S is the sum over all ordered pairs i<j of sign(y[j]-y[i]); the variance
numerator subtracts k(k-1)(2k+5) for each distinct value appearing k
times; non-positive variance yields exactly 1; otherwise the
continuity-corrected score is converted via p = 2*(1 - Phi |z|). -/
def mann_kendall_ref {α : Type} [LinearOrderedField α]
    (sqrtF : ℚ → α) (Phi : α → α) (y : List (Option ℚ)) : Option α :=
  let v := y.filterMap id
  if v.length < 3 then none
  else
    let n : ℤ := v.length
    let S : ℤ := ((pairsOf v).map (fun p => sgn (p.2 - p.1))).sum
    let vs : ℚ :=
      ((n * (n - 1) * (2 * n + 5)
        - (v.dedup.map (fun w =>
            ((v.count w : ℤ) * ((v.count w : ℤ) - 1) * (2 * (v.count w : ℤ) + 5)))).sum : ℤ) : ℚ) / 18
    if vs ≤ 0 then some 1
    else
      let z : α :=
        if 0 < S then ((S : α) - 1) / sqrtF vs
        else if S < 0 then ((S : α) + 1) / sqrtF vs
        else 0
      some (2 * (1 - Phi |z|))

/-- Median as `np.median`: average of the two middle elements of the sorted
list when the length is even, the middle element when odd; `none` on an
empty list (where `np.median` yields `NaN`). -/
def median (l : List ℚ) : Option ℚ :=
  let s := l.insertionSort (· ≤ ·)
  let n := s.length
  if n = 0 then none
  else if n % 2 = 1 then some (s.getD (n / 2) 0)
  else some ((s.getD (n / 2 - 1) 0 + s.getD (n / 2) 0) / 2)

/-- Modelled from the spec: `scipy.stats.theilslopes` (library code, not in
the repository) computes the median of the pairwise slopes
(y[j]-y[i])/(x[j]-x[i]); scipy takes, for each index pair, the orientation
with positive x-difference, and drops pairs with equal x. -/
def theilslopes (y x : List ℚ) : Option ℚ :=
  let pts := x.zip y
  let slopes := (pairsOf pts).filterMap (fun p =>
    if p.1.1 < p.2.1 then some ((p.2.2 - p.1.2) / (p.2.1 - p.1.1))
    else if p.2.1 < p.1.1 then some ((p.1.2 - p.2.2) / (p.1.1 - p.2.1))
    else none)
  median slopes

/-- `theil_sen_slope` from the source: pairwise NaN exclusion, `NaN`
(`none`) when fewer than 2 valid points remain, otherwise the library
estimator on the masked arrays. -/
def theil_sen_slope (y x : List (Option ℚ)) : Option ℚ :=
  let m := (y.zip x).filterMap (fun p =>
    match p.1, p.2 with
    | some a, some b => some (a, b)
    | _, _ => none)
  if m.length < 2 then none
  else theilslopes (m.map Prod.fst) (m.map Prod.snd)

/-- The reference pairwise-median definition of the robust slope, written
from the specification: after pairwise exclusion of missing entries,
undefined on fewer than 2 points, otherwise the median of
(y[j]-y[i])/(x[j]-x[i]) over all pairs i<j with x[i] ≠ x[j]. -/
def theil_sen_ref (y x : List (Option ℚ)) : Option ℚ :=
  let m := (y.zip x).filterMap (fun p =>
    match p.1, p.2 with
    | some a, some b => some (a, b)
    | _, _ => none)
  if m.length < 2 then none
  else
    let pts := (m.map Prod.snd).zip (m.map Prod.fst)
    median ((pairsOf pts).filterMap (fun p =>
      if p.1.1 ≠ p.2.1 then some ((p.2.2 - p.1.2) / (p.2.1 - p.1.1)) else none))

/-! ## Parsing helpers -/

/-- Python `str.strip()`: leading and trailing whitespace removed, viewed
as a character list (Lean's `String.trim` is equivalent but opaque to
evaluation, so the list form is used). -/
def pyStrip (s : String) : List Char :=
  ((s.data.dropWhile Char.isWhitespace).reverse.dropWhile Char.isWhitespace).reverse

/-- A cell of a loaded table as the script sees it: either a genuine
boolean or anything else, observed through `str(v)` (numbers, strings and
`NaN` — `str(nan)` is `"nan"`, `str(None)` is `"None"`). -/
inductive CellVal : Type
  | b (v : Bool)
  | s (v : String)
deriving DecidableEq

/-- `_to_bool` from the source: booleans pass through, anything else is
stringified, stripped, lowercased and checked against {true,1,yes,y}. -/
def _to_bool (c : CellVal) : Bool :=
  match c with
  | .b v => v
  | .s v => decide ((pyStrip v).map Char.toLower ∈
      [['t', 'r', 'u', 'e'], ['1'], ['y', 'e', 's'], ['y']])

/-- Value of a digit run in base 10. -/
def digitsVal (cs : List Char) : ℕ :=
  cs.foldl (fun n c => 10 * n + (c.toNat - 48)) 0

/-- Python `int(s)` on a stripped string: optional sign then a nonempty
run of decimal digits.  (Python additionally accepts underscore digit
separators; no input of this program produces them, so they are not
modelled.) -/
def parsePyInt (s : String) : Option ℤ :=
  let t := pyStrip s
  let sign : ℤ := match t with
    | '-' :: _ => -1
    | _ => 1
  let ds := match t with
    | '+' :: r => r
    | '-' :: r => r
    | r => r
  if ds ≠ [] ∧ ds.all Char.isDigit then some (sign * digitsVal ds) else none

/-- `_to_int_or_nan` from the source: `int(str(v).strip())`, `NaN` on
failure.  A missing (`NaN`/`None`) cell stringifies to a non-numeric
string, so it is modelled as `none` input and yields `none`. -/
def _to_int_or_nan (v : Option String) : Option ℤ :=
  match v with
  | none => none
  | some s => parsePyInt s

/-- `pd.to_numeric(·, errors="coerce")` on a string: optional sign,
decimal digits with an optional fractional part and an optional exponent;
anything else coerces to `NaN` (`none`). -/
def parseDecimal (s : String) : Option ℚ :=
  let t := pyStrip s
  let sign : ℚ := match t with
    | '-' :: _ => -1
    | _ => 1
  let r1 := match t with
    | '+' :: r => r
    | '-' :: r => r
    | r => r
  let mant := r1.takeWhile (fun c => c ≠ 'e' ∧ c ≠ 'E')
  let expPart := r1.dropWhile (fun c => c ≠ 'e' ∧ c ≠ 'E')
  let ip := mant.takeWhile Char.isDigit
  let rest := mant.dropWhile Char.isDigit
  let frac? : Option (List Char) := match rest with
    | [] => some []
    | '.' :: f => if f.all Char.isDigit then some f else none
    | _ => none
  match frac? with
  | none => none
  | some frac =>
    if ip = [] ∧ frac = [] then none
    else
      let expVal? : Option ℤ := match expPart with
        | [] => some 0
        | _ :: es =>
          let esign : ℤ := match es with
            | '-' :: _ => -1
            | _ => 1
          let eds := match es with
            | '+' :: r => r
            | '-' :: r => r
            | r => r
          if eds ≠ [] ∧ eds.all Char.isDigit then some (esign * digitsVal eds) else none
      match expVal? with
      | none => none
      | some e =>
        some (sign * ((digitsVal ip : ℚ) + (digitsVal frac : ℚ) / (10 : ℚ) ^ frac.length)
          * (10 : ℚ) ^ e)

/-! ## Resource-usage table (monitor_results.csv) -/

/-- One row of the monitor CSV.  `none` models a `NaN` cell. -/
structure MonitorRow : Type where
  timestamp : Option ℚ
  memory_mib : Option ℚ
  scope : Option String
  container_name : Option String
deriving DecidableEq

/-- The parsed monitor CSV: which optional columns exist, plus the rows.
When a `has…` flag is false the corresponding field of every row is
meaningless (the column is absent from the file). -/
structure MonitorTable : Type where
  hasTimestamp : Bool
  hasScope : Bool
  hasContainer : Bool
  rows : List MonitorRow
deriving DecidableEq

/-- Ordering on timestamp cells as `sort_values` uses it: `NaN` sorts last. -/
def tsLeM (a b : Option ℚ) : Bool :=
  match a, b with
  | some x, some y => decide (x ≤ y)
  | some _, none => true
  | none, some _ => false
  | none, none => true

/-- `read_monitor_csv`: schema error when the timestamp column is absent,
otherwise the table sorted by timestamp. -/
def read_monitor_csv (t : MonitorTable) : Except String MonitorTable :=
  if t.hasTimestamp then
    .ok { t with rows := t.rows.insertionSort (fun r s => tsLeM r.timestamp s.timestamp = true) }
  else .error "missing timestamp column"

/-- `proj[["timestamp", "memory_mib"]].dropna()`: keep rows where both
cells are present. -/
def pairsDropna (rows : List MonitorRow) : List (ℚ × ℚ) :=
  rows.filterMap (fun r =>
    match r.timestamp, r.memory_mib with
    | some t, some m => some (t, m)
    | _, _ => none)

/-- `df.groupby("timestamp", as_index=False)["memory_mib"].sum()`: keys
are the distinct non-`NaN` timestamps in ascending order; each group sums
its present memory values (`NaN` skipped, empty sum = 0). -/
def groupSum (rows : List MonitorRow) : List (ℚ × ℚ) :=
  let keys := ((rows.filterMap (fun r => r.timestamp)).dedup).insertionSort (· ≤ ·)
  keys.map (fun k =>
    (k, ((rows.filter (fun r => r.timestamp = some k)).filterMap (fun r => r.memory_mib)).sum))

/-- `build_memory_series` from the source: three-way branch on which tag
values are present. -/
def build_memory_series (t : MonitorTable) : Except String (List (ℚ × ℚ)) :=
  if t.hasScope = true ∧ t.rows.any (fun r => r.scope = some "project") then
    .ok (pairsDropna (t.rows.filter (fun r => r.scope = some "project")))
  else if t.hasContainer = true ∧ t.rows.any (fun r => r.container_name = some "ALL") then
    .ok (pairsDropna (t.rows.filter (fun r => r.container_name = some "ALL")))
  else if t.hasContainer = false then
    .error "monitor_results.csv lacks both project markers and container_name; cannot aggregate."
  else
    .ok (groupSum t.rows)

/-- The CLI configuration threaded through both metric computations. -/
structure Config : Type where
  warmupHours : ℚ
  earlyStartH : ℚ
  earlyEndH : ℚ
  lateDurationH : ℚ
  binMinutes : ℤ
  minSamplesPerBin : ℕ
deriving DecidableEq

/-- `np.nanmax` over a series without `NaN`s (0 on empty, unreached). -/
def maxQ : List ℚ → ℚ
  | [] => 0
  | a :: r => r.foldl max a

/-- `compute_memory_metrics` from the source (the path argument replaced
by the parsed CSV): returns (slope, p-value, early/late delta), any of
which may be undefined, or an error when reading/aggregation raises.
An empty canonical series makes `.iloc[0]` raise, hence the error case. -/
def compute_memory_metrics {α : Type} [LinearOrderedField α]
    (sqrtF : ℚ → α) (Phi : α → α) (cfg : Config) (mon : MonitorTable) :
    Except String (Option ℚ × Option α × Option ℚ) := do
  let m ← read_monitor_csv mon
  let s0 ← build_memory_series m
  let s := s0.insertionSort (fun a b => a.1 ≤ b.1)
  match s with
  | [] => .error "IndexError: empty memory series"
  | (t0, _) :: _ =>
    let hrs := s.map (fun p => ((p.1 - t0) / 1000 / 3600, p.2))
    let warm := hrs.filter (fun p => cfg.warmupHours ≤ p.1)
    if warm.length < 3 then pure (none, none, none)
    else
      let y := warm.map Prod.snd
      let x := warm.map Prod.fst
      let slope := theil_sen_slope (y.map some) (x.map some)
      let pval := mann_kendall_pvalue sqrtF Phi (y.map some)
      let tmax := maxQ x
      let early := (warm.filter (fun p => cfg.earlyStartH ≤ p.1 ∧ p.1 < cfg.earlyEndH)).map Prod.snd
      let lateStart := max cfg.warmupHours (tmax - cfg.lateDurationH)
      let late := (warm.filter (fun p => lateStart ≤ p.1 ∧ p.1 ≤ tmax)).map Prod.snd
      let delta : Option ℚ :=
        if early.length ≠ 0 ∧ late.length ≠ 0 then
          match median late, median early with
          | some a, some b => some (a - b)
          | _, _ => none
        else none
      pure (slope, pval, delta)

/-! ## Request log (jmeter_results.jtl) -/

/-- One request row, fields as `compute_latency_metrics` consumes them:
`timeStamp`/`elapsed` after numeric coercion (`none` = `NaN`), the raw
success cell, the status-code cell as a string (`none` = missing). -/
structure JRow : Type where
  timeStamp : Option ℚ
  elapsed : Option ℚ
  success : CellVal
  responseCode : Option String
deriving DecidableEq

/-- A loaded request-log table. -/
structure JTable : Type where
  hasResponseCode : Bool
  rows : List JRow
deriving DecidableEq

/-- What `pd.read_csv` produced on the file: which columns exist plus rows. -/
structure CsvFileData : Type where
  hasTimeStamp : Bool
  hasElapsed : Bool
  hasSuccess : Bool
  hasResponseCode : Bool
  rows : List JRow
deriving DecidableEq

/-- An element of the parsed XML document, with the attributes the script
reads (`none` = attribute absent). -/
structure XmlNode : Type where
  tag : String
  ts : Option String
  t : Option String
  s : Option String
  rc : Option String
  lb : Option String
  rm : Option String
deriving DecidableEq

/-- A `.jtl` file, characterized by what each parser yields on it:
`csv = none` when `pd.read_csv` raises, `xml = none` when `ET.parse`
raises (the node list is every element `root.iter()` visits). -/
structure JtlFile : Type where
  csv : Option CsvFileData
  xml : Option (List XmlNode)
deriving DecidableEq

/-- Build one row from a sample element: numeric coercion of `ts`/`t`,
`_to_bool` of `s` (an absent attribute stringifies to `"None"`). -/
def xmlRow (n : XmlNode) : JRow :=
  { timeStamp := n.ts.bind parseDecimal
    elapsed := n.t.bind parseDecimal
    success := .b (_to_bool (.s (match n.s with | some v => v | none => "None")))
    responseCode := n.rc }

/-- The XML fallback of `read_jmeter_jtl`: parse error when the document
is unparseable, scan for `httpSample`/`sample` elements, parse error when
none exist. -/
def xmlFallback (f : JtlFile) : Except String JTable :=
  match f.xml with
  | none => .error "Could not parse as CSV or XML"
  | some nodes =>
    let samples := nodes.filter (fun n => n.tag = "httpSample" ∨ n.tag = "sample")
    if samples.isEmpty then .error "No JMeter sample nodes found in XML JTL"
    else .ok { hasResponseCode := true, rows := samples.map xmlRow }

/-- The three mandatory columns `{timeStamp, elapsed, success}`. -/
def mandatoryCols (df : CsvFileData) : Bool :=
  df.hasTimeStamp && df.hasElapsed && df.hasSuccess

/-- `read_jmeter_jtl`: try CSV first, keep it exactly when it yields the
three mandatory columns, otherwise fall back to XML. -/
def read_jmeter_jtl (f : JtlFile) : Except String JTable :=
  match f.csv with
  | some df =>
    if mandatoryCols df then .ok { hasResponseCode := df.hasResponseCode, rows := df.rows }
    else xmlFallback f
  | none => xmlFallback f

/-! ## Latency metrics pipeline -/

/-- `j["success"].apply(_to_bool)`. -/
def success_bool (r : JRow) : Bool := _to_bool r.success

/-- `j["resp_int"]`: coerced status code, `NaN` for the whole column when
`responseCode` is absent. -/
def resp_int (hasRC : Bool) (r : JRow) : Option ℤ :=
  if hasRC then _to_int_or_nan r.responseCode else none

/-- The error mask: `(~success_bool) | (resp_int >= 400) | resp_int.isna()`. -/
def errorRow (hasRC : Bool) (r : JRow) : Bool :=
  (!success_bool r) ||
    (match resp_int hasRC r with
     | some k => decide (400 ≤ k)
     | none => true)

/-- `total_errors = int(error_mask.sum())`. -/
def totalErrors (t : JTable) : ℕ :=
  t.rows.countP (fun r => errorRow t.hasResponseCode r)

/-- The `--latency-filter` choices (an invalid string is rejected by
argparse before any computation). -/
inductive FilterMode : Type
  | all
  | success
  | httpLt400
deriving DecidableEq

/-- A row of the working frame after the time axis is built and
`dropna(subset=["t_hours", "elapsed"])` is applied. -/
structure LRow : Type where
  th : ℚ
  elapsed : ℚ
  sb : Bool
  resp : Option ℤ
deriving DecidableEq

/-- `sort_values("timeStamp")` (`NaN` last). -/
def sortJRows (rows : List JRow) : List JRow :=
  rows.insertionSort (fun r s => tsLeM r.timeStamp s.timeStamp = true)

/-- `t0`: first entry of the sorted numeric timestamps
(`pd.to_numeric(j["timeStamp"]).dropna().iloc[0]`); `none` when that
raises on an empty selection. -/
def jT0 (rows : List JRow) : Option ℚ :=
  ((sortJRows rows).filterMap (fun r => r.timeStamp)).head?

/-- Rows surviving `dropna(subset=["t_hours", "elapsed"])`, with the time
axis in hours since `t0`. -/
def lrowsOf (hasRC : Bool) (t0 : ℚ) (rows : List JRow) : List LRow :=
  (sortJRows rows).filterMap (fun r =>
    match r.timeStamp, r.elapsed with
    | some ts, some e =>
      some { th := (ts - t0) / 1000 / 3600, elapsed := e
             sb := success_bool r, resp := resp_int hasRC r }
    | _, _ => none)

/-- Warm-up exclusion `j[j["t_hours"] >= warmup_hours]`. -/
def warmRows (cfg : Config) (hasRC : Bool) (t0 : ℚ) (rows : List JRow) : List LRow :=
  (lrowsOf hasRC t0 rows).filter (fun r => cfg.warmupHours ≤ r.th)

/-- The latency-analysis subset for each filter mode.  Under `httpLt400`
a `NaN` status code compares false and is excluded. -/
def filterMode (mode : FilterMode) (l : List LRow) : List LRow :=
  match mode with
  | .all => l
  | .success => l.filter (fun r => r.sb)
  | .httpLt400 => l.filter (fun r =>
      r.sb && (match r.resp with
               | some k => decide (k < 400)
               | none => false))

/-- `(jj["t_minutes"] // bin_minutes).astype(int)`. -/
def binOf (cfg : Config) (r : LRow) : ℤ :=
  ⌊(r.th * 60) / (cfg.binMinutes : ℚ)⌋

/-- The bin keys `groupby("bin")` produces, in ascending order. -/
def binKeys (cfg : Config) (jj : List LRow) : List ℤ :=
  ((jj.map (binOf cfg)).dedup).insertionSort (· ≤ ·)

/-- The rows of one bin. -/
def binGroup (cfg : Config) (jj : List LRow) (b : ℤ) : List LRow :=
  jj.filter (fun r => binOf cfg r = b)

/-- `g.size()` for one bin. -/
def groupCount (cfg : Config) (jj : List LRow) (b : ℤ) : ℕ :=
  (binGroup cfg jj b).length

/-- `valid_bins = cnt[cnt >= min_samples_per_bin].index`. -/
def validBins (cfg : Config) (jj : List LRow) : List ℤ :=
  (binKeys cfg jj).filter (fun b => cfg.minSamplesPerBin ≤ groupCount cfg jj b)

/-- `Series.quantile(0.95)` with the default linear interpolation:
position `h = 0.95 * (n - 1)` in the sorted values, interpolating between
the neighbouring order statistics (0 on empty, unreached). -/
def quantile95 (l : List ℚ) : ℚ :=
  let s := l.insertionSort (· ≤ ·)
  let n := s.length
  if n = 0 then 0
  else
    let h : ℚ := (95 / 100) * ((n : ℚ) - 1)
    let lo : ℕ := (⌊h⌋).toNat
    let g : ℚ := h - (⌊h⌋ : ℚ)
    if lo + 1 < n then s.getD lo 0 + g * (s.getD (lo + 1) 0 - s.getD lo 0)
    else s.getD lo 0

/-- `p95.loc[valid_bins]`: the retained (bin, p95) series. -/
def p95Series (cfg : Config) (jj : List LRow) : List (ℤ × ℚ) :=
  (validBins cfg jj).map (fun b =>
    (b, quantile95 ((binGroup cfg jj b).map (fun r => r.elapsed))))

/-- Body of `compute_latency_metrics` after the file is read. -/
def compute_latency_core {α : Type} [LinearOrderedField α]
    (sqrtF : ℚ → α) (Phi : α → α) (cfg : Config) (mode : FilterMode)
    (tbl : JTable) : Except String (Option ℚ × Option α × Option ℚ × ℕ) :=
  let total := totalErrors tbl
  match jT0 tbl.rows with
  | none => .error "IndexError: no numeric timeStamp"
  | some t0 =>
    let warm := warmRows cfg tbl.hasResponseCode t0 tbl.rows
    if warm.length < 10 then .ok (none, none, none, total)
    else
      let jj := filterMode mode warm
      if jj.length < 10 then .ok (none, none, none, total)
      else
        let series := p95Series cfg jj
        if series.length < 5 then .ok (none, none, none, total)
        else
          let x := series.map (fun p => (p.1 : ℚ) * ((cfg.binMinutes : ℚ) / 60))
          let y := series.map Prod.snd
          let slope := theil_sen_slope (y.map some) (x.map some)
          let pval := mann_kendall_pvalue sqrtF Phi (y.map some)
          let tmax := maxQ x
          let xy := x.zip y
          let earlyY := (xy.filter (fun p => cfg.earlyStartH ≤ p.1 ∧ p.1 < cfg.earlyEndH)).map Prod.snd
          let lateStart := max cfg.warmupHours (tmax - cfg.lateDurationH)
          let lateY := (xy.filter (fun p => lateStart ≤ p.1 ∧ p.1 ≤ tmax)).map Prod.snd
          let delta : Option ℚ :=
            if earlyY.length ≠ 0 ∧ lateY.length ≠ 0 then
              match median lateY, median earlyY with
              | some a, some b => some (a - b)
              | _, _ => none
            else none
          .ok (slope, pval, delta, total)

/-- `compute_latency_metrics` from the source (path replaced by the file
model): read the log, then run the pipeline. -/
def compute_latency_metrics {α : Type} [LinearOrderedField α]
    (sqrtF : ℚ → α) (Phi : α → α) (cfg : Config) (mode : FilterMode)
    (f : JtlFile) : Except String (Option ℚ × Option α × Option ℚ × ℕ) := do
  let tbl ← read_jmeter_jtl f
  compute_latency_core sqrtF Phi cfg mode tbl

/-! ## Orchestration (the per-run loop of `main`) -/

/-- One output record. -/
structure SummaryRow (α : Type) : Type where
  app_name : String
  memory_slope_mib_per_hour : Option ℚ
  memory_mk_pvalue : Option α
  p95_slope_ms_per_hour : Option ℚ
  p95_mk_pvalue : Option α
  delta_memory_early_late : Option ℚ
  delta_p95_early_late : Option ℚ
  total_errors : ℕ
deriving DecidableEq

/-- One discovered run: app name plus its two input artifacts. -/
structure Run : Type where
  app_name : String
  monitor : MonitorTable
  jmeter : JtlFile
deriving DecidableEq

/-- The per-run loop of `main` (the lines building `rows`): runs are
processed in order with no exception handling, so an error in any run
propagates and no row list is produced at all. -/
def processRuns {α : Type} [LinearOrderedField α]
    (sqrtF : ℚ → α) (Phi : α → α) (cfg : Config) (mode : FilterMode) :
    List Run → Except String (List (SummaryRow α))
  | [] => .ok []
  | run :: rest => do
    let (memSlope, memP, memDelta) ← compute_memory_metrics sqrtF Phi cfg run.monitor
    let (pSlope, pP, pDelta, te) ← compute_latency_metrics sqrtF Phi cfg mode run.jmeter
    let others ← processRuns sqrtF Phi cfg mode rest
    pure ({ app_name := run.app_name
            memory_slope_mib_per_hour := memSlope
            memory_mk_pvalue := memP
            p95_slope_ms_per_hour := pSlope
            p95_mk_pvalue := pP
            delta_memory_early_late := memDelta
            delta_p95_early_late := pDelta
            total_errors := te } :: others)

/-! ## Theorems -/

lemma mkS_eq_pairs (l : List ℚ) :
    mkS l = ((pairsOf l).map (fun p => sgn (p.2 - p.1))).sum := by
  induction l with
  | nil => rfl
  | cons a r ih =>
    simp only [mkS, pairsOf, List.map_append, List.sum_append, ih, List.map_map]
    rfl

lemma tieTerm_eq (l : List ℚ) :
    tieTerm l = (l.dedup.map (fun w =>
      ((l.count w : ℤ) * ((l.count w : ℤ) - 1) * (2 * (l.count w : ℤ) + 5)))).sum := by
  rw [tieTerm, tieCounts, List.map_map]
  rfl

lemma filterMap_id_replicate (k : ℕ) (c : ℚ) :
    (List.replicate k (some c)).filterMap id = List.replicate k c := by
  induction k with
  | zero => rfl
  | succ n ih => simp [List.replicate_succ, ih]

lemma dedup_replicate (k : ℕ) (c : ℚ) (h : k ≠ 0) :
    (List.replicate k c).dedup = [c] := by
  induction k with
  | zero => exact absurd rfl h
  | succ n ih =>
    cases n with
    | zero => simp
    | succ m =>
      rw [List.replicate_succ, List.dedup_cons_of_mem (by simp), ih (by simp)]

lemma varS_replicate (k : ℕ) (c : ℚ) (h : k ≠ 0) :
    varS (List.replicate k c) = 0 := by
  simp [varS, tieTerm, tieCounts, dedup_replicate k c h, List.count_replicate_self,
    List.length_replicate]

lemma mann_kendall_eq_ref {α : Type} [LinearOrderedField α]
    (sqrtF : ℚ → α) (Phi : α → α) (y : List (Option ℚ)) :
    mann_kendall_pvalue sqrtF Phi y = mann_kendall_ref sqrtF Phi y := by
  simp only [mann_kendall_pvalue, mann_kendall_ref, varS, mkS_eq_pairs, tieTerm_eq]

lemma mann_kendall_mem_unit {α : Type} [LinearOrderedField α]
    (sqrtF : ℚ → α) (Phi : α → α)
    (hPhi : ∀ t : α, 0 ≤ t → 1 / 2 ≤ Phi t ∧ Phi t ≤ 1)
    (y : List (Option ℚ)) (p : α)
    (h : mann_kendall_pvalue sqrtF Phi y = some p) : 0 ≤ p ∧ p ≤ 1 := by
  simp only [mann_kendall_pvalue] at h
  split at h
  · exact absurd h (by simp)
  · split at h
    · rw [Option.some_inj] at h
      subst h
      norm_num
    · rw [Option.some_inj] at h
      subst h
      have hz := abs_nonneg (if 0 < mkS (y.filterMap id) then
          ((mkS (y.filterMap id) : α) - 1) / sqrtF (varS (y.filterMap id))
        else if mkS (y.filterMap id) < 0 then
          ((mkS (y.filterMap id) : α) + 1) / sqrtF (varS (y.filterMap id))
        else 0)
      obtain ⟨h1, h2⟩ := hPhi _ hz
      constructor <;> linarith

lemma mann_kendall_const {α : Type} [LinearOrderedField α]
    (sqrtF : ℚ → α) (Phi : α → α) (c : ℚ) (k : ℕ) (hk : 3 ≤ k) :
    mann_kendall_pvalue sqrtF Phi (List.replicate k (some c)) = some 1 := by
  simp only [mann_kendall_pvalue, filterMap_id_replicate, List.length_replicate]
  rw [if_neg (by omega), if_pos (le_of_eq (varS_replicate k c (by omega)))]

/-- C2: `mann_kendall_pvalue` agrees with the reference Mann–Kendall
definition (NaN removal, S as the signed pair sum, tie-corrected variance,
1.0 on non-positive variance, continuity-corrected two-sided p-value); for
any standard-normal-CDF-like `Phi` the defined result lies in [0,1]; and a
constant sequence of at least 3 values yields exactly 1. -/
theorem mann_kendall_matches_reference {α : Type} [LinearOrderedField α]
    (sqrtF : ℚ → α) (Phi : α → α)
    (hPhi : ∀ t : α, 0 ≤ t → 1 / 2 ≤ Phi t ∧ Phi t ≤ 1) :
    (∀ y, mann_kendall_pvalue sqrtF Phi y = mann_kendall_ref sqrtF Phi y) ∧
    (∀ y p, mann_kendall_pvalue sqrtF Phi y = some p → 0 ≤ p ∧ p ≤ 1) ∧
    (∀ (c : ℚ) (k : ℕ), 3 ≤ k →
      mann_kendall_pvalue sqrtF Phi (List.replicate k (some c)) = some 1) :=
  ⟨fun y => mann_kendall_eq_ref sqrtF Phi y,
   fun y p h => mann_kendall_mem_unit sqrtF Phi hPhi y p h,
   fun c k hk => mann_kendall_const sqrtF Phi c k hk⟩

/-- Witness for C2 at a concrete input: the constant branch evaluated at
`[5, 5, 5]` with a concrete admissible `Phi`. -/
theorem mann_kendall_matches_reference_witness :
    mann_kendall_pvalue (fun _ : ℚ => (0 : ℚ)) (fun _ => 1 / 2)
      (List.replicate 3 (some 5)) = some 1 :=
  (mann_kendall_matches_reference (fun _ : ℚ => (0 : ℚ)) (fun _ => 1 / 2)
    (fun t ht => by norm_num)).2.2 5 3 (by norm_num)

lemma slope_fun_eq :
    (fun p : (ℚ × ℚ) × (ℚ × ℚ) =>
      if p.1.1 < p.2.1 then some ((p.2.2 - p.1.2) / (p.2.1 - p.1.1))
      else if p.2.1 < p.1.1 then some ((p.1.2 - p.2.2) / (p.1.1 - p.2.1))
      else none) =
    (fun p : (ℚ × ℚ) × (ℚ × ℚ) =>
      if p.1.1 ≠ p.2.1 then some ((p.2.2 - p.1.2) / (p.2.1 - p.1.1)) else none) := by
  funext p
  rcases lt_trichotomy p.1.1 p.2.1 with hlt | heq | hgt
  · rw [if_pos hlt, if_pos (ne_of_lt hlt)]
  · rw [if_neg (by rw [heq]; exact lt_irrefl _), if_neg (by rw [heq]; exact lt_irrefl _),
      if_neg (by rw [heq]; exact fun hne => hne rfl)]
  · rw [if_neg (not_lt_of_gt hgt), if_pos hgt, if_pos (ne_of_gt hgt)]
    have h1 : p.1.2 - p.2.2 = -(p.2.2 - p.1.2) := by ring
    have h2 : p.1.1 - p.2.1 = -(p.2.1 - p.1.1) := by ring
    rw [h1, h2, neg_div_neg_eq]

/-- C3: `theil_sen_slope` returns undefined when fewer than 2 valid points
remain after pairwise NaN exclusion, and otherwise the library-based
implementation equals the reference pairwise-median slope definition
(median of (y[j]-y[i])/(x[j]-x[i]) over pairs with distinct x). -/
theorem theil_sen_matches_reference :
    (∀ y x : List (Option ℚ),
      ((y.zip x).filterMap (fun p =>
        match p.1, p.2 with
        | some a, some b => some (a, b)
        | _, _ => none)).length < 2 →
      theil_sen_slope y x = none) ∧
    (∀ y x : List (Option ℚ), theil_sen_slope y x = theil_sen_ref y x) := by
  constructor
  · intro y x h
    simp only [theil_sen_slope]
    rw [if_pos h]
  · intro y x
    simp only [theil_sen_slope, theil_sen_ref, theilslopes, slope_fun_eq]

/-- Witness for C3: with a single valid point the slope is undefined. -/
theorem theil_sen_matches_reference_witness :
    theil_sen_slope [some 1] [some 2] = none :=
  theil_sen_matches_reference.1 [some 1] [some 2] (by decide)

lemma bms_project_branch (t : MonitorTable)
    (h1 : t.hasScope = true)
    (h2 : t.rows.any (fun r => r.scope = some "project") = true) :
    build_memory_series t =
      .ok (pairsDropna (t.rows.filter (fun r => r.scope = some "project"))) := by
  simp only [build_memory_series]
  rw [if_pos ⟨h1, h2⟩]

lemma bms_all_branch (t : MonitorTable)
    (hna : ¬(t.hasScope = true ∧ t.rows.any (fun r => r.scope = some "project") = true))
    (h1 : t.hasContainer = true)
    (h2 : t.rows.any (fun r => r.container_name = some "ALL") = true) :
    build_memory_series t =
      .ok (pairsDropna (t.rows.filter (fun r => r.container_name = some "ALL"))) := by
  simp only [build_memory_series]
  rw [if_neg hna, if_pos ⟨h1, h2⟩]

lemma bms_fallback_branch (t : MonitorTable)
    (hna : ¬(t.hasScope = true ∧ t.rows.any (fun r => r.scope = some "project") = true))
    (hnb : ¬(t.hasContainer = true ∧ t.rows.any (fun r => r.container_name = some "ALL") = true))
    (h1 : t.hasContainer = true) :
    build_memory_series t = .ok (groupSum t.rows) := by
  simp only [build_memory_series]
  rw [if_neg hna, if_neg hnb, if_neg (by simp [h1])]

/-- C4: the aggregation branch is decided solely by which tag values are
present: whole-run (`scope = "project"`) rows win and are used exactly;
otherwise sentinel (`container_name = "ALL"`) rows are used exactly;
otherwise the per-timestamp sum over all components is taken.  Moreover in
the whole-run branch appending any non-project rows leaves the output
unchanged, so component rows never contribute to it. -/
theorem build_memory_series_branch_selection :
    (∀ t : MonitorTable,
      t.hasScope = true →
      t.rows.any (fun r => r.scope = some "project") = true →
      build_memory_series t =
        .ok (pairsDropna (t.rows.filter (fun r => r.scope = some "project")))) ∧
    (∀ (t : MonitorTable) (extra : List MonitorRow),
      t.hasScope = true →
      t.rows.any (fun r => r.scope = some "project") = true →
      (∀ r ∈ extra, r.scope ≠ some "project") →
      build_memory_series { t with rows := t.rows ++ extra } = build_memory_series t) ∧
    (∀ t : MonitorTable,
      ¬(t.hasScope = true ∧ t.rows.any (fun r => r.scope = some "project") = true) →
      t.hasContainer = true →
      t.rows.any (fun r => r.container_name = some "ALL") = true →
      build_memory_series t =
        .ok (pairsDropna (t.rows.filter (fun r => r.container_name = some "ALL")))) ∧
    (∀ t : MonitorTable,
      ¬(t.hasScope = true ∧ t.rows.any (fun r => r.scope = some "project") = true) →
      ¬(t.hasContainer = true ∧ t.rows.any (fun r => r.container_name = some "ALL") = true) →
      t.hasContainer = true →
      build_memory_series t = .ok (groupSum t.rows)) := by
  refine ⟨fun t h1 h2 => bms_project_branch t h1 h2, ?_,
    fun t hna h1 h2 => bms_all_branch t hna h1 h2,
    fun t hna hnb h1 => bms_fallback_branch t hna hnb h1⟩
  intro t extra h1 h2 hex
  have hany : (t.rows ++ extra).any (fun r => r.scope = some "project") = true := by
    rw [List.any_append, h2, Bool.true_or]
  have hfil : (t.rows ++ extra).filter (fun r => decide (r.scope = some "project")) =
      t.rows.filter (fun r => decide (r.scope = some "project")) := by
    rw [List.filter_append]
    have hnil : List.filter (fun r => decide (r.scope = some "project")) extra = [] :=
      List.filter_eq_nil_iff.mpr (fun r hr => by simpa using hex r hr)
    rw [hnil, List.append_nil]
  rw [bms_project_branch { t with rows := t.rows ++ extra } h1 hany,
    bms_project_branch t h1 h2]
  simp only [hfil]

/-- Witness for C4: a table holding a whole-run-tagged row (usage 5) and
two component rows (usages 2 and 4, summing to 6 ≠ 5): only the tagged
row reaches the output. -/
theorem build_memory_series_branch_selection_witness :
    build_memory_series
      ⟨true, true, true,
        [⟨some 0, some 5, some "project", some "app"⟩,
         ⟨some 0, some 2, some "container", some "a"⟩,
         ⟨some 0, some 4, some "container", some "b"⟩]⟩ = .ok [(0, 5)] := by
  rw [build_memory_series_branch_selection.1
    ⟨true, true, true,
      [⟨some 0, some 5, some "project", some "app"⟩,
       ⟨some 0, some 2, some "container", some "a"⟩,
       ⟨some 0, some 4, some "container", some "b"⟩]⟩ (by decide) (by decide)]
  decide

/-- C9 as stated is false: in the whole-run-tagged branch the source keeps
one output pair per selected row without deduplication, so two project
rows sharing a timestamp give that timestamp two values. -/
theorem build_memory_series_dup_timestamp :
    build_memory_series
      ⟨true, true, true,
        [⟨some 0, some 1, some "project", none⟩,
         ⟨some 0, some 2, some "project", none⟩]⟩ = .ok [(0, 1), (0, 2)] ∧
    ¬ (List.map Prod.fst [((0 : ℚ), (1 : ℚ)), (0, 2)]).Nodup := by
  exact ⟨by decide, by decide⟩

/-- C9 amended: the summation fallback always yields one value per
timestamp; the whole-run-tagged and sentinel branches do so provided the
selected rows' (timestamp, usage) pairs have pairwise distinct
timestamps. -/
theorem build_memory_series_one_per_timestamp :
    (∀ t : MonitorTable,
      ¬(t.hasScope = true ∧ t.rows.any (fun r => r.scope = some "project") = true) →
      ¬(t.hasContainer = true ∧ t.rows.any (fun r => r.container_name = some "ALL") = true) →
      t.hasContainer = true →
      ∀ s, build_memory_series t = .ok s → (s.map Prod.fst).Nodup) ∧
    (∀ t : MonitorTable,
      t.hasScope = true →
      t.rows.any (fun r => r.scope = some "project") = true →
      ((pairsDropna (t.rows.filter (fun r => r.scope = some "project"))).map Prod.fst).Nodup →
      ∀ s, build_memory_series t = .ok s → (s.map Prod.fst).Nodup) ∧
    (∀ t : MonitorTable,
      ¬(t.hasScope = true ∧ t.rows.any (fun r => r.scope = some "project") = true) →
      t.hasContainer = true →
      t.rows.any (fun r => r.container_name = some "ALL") = true →
      ((pairsDropna (t.rows.filter (fun r => r.container_name = some "ALL"))).map Prod.fst).Nodup →
      ∀ s, build_memory_series t = .ok s → (s.map Prod.fst).Nodup) := by
  refine ⟨?_, ?_, ?_⟩
  · intro t hna hnb h1 s hs
    rw [bms_fallback_branch t hna hnb h1] at hs
    obtain rfl : groupSum t.rows = s := by
      exact Except.ok.inj hs
    rw [groupSum]
    simp only [List.map_map]
    have : (Prod.fst ∘ fun k : ℚ =>
        (k, ((t.rows.filter (fun r => r.timestamp = some k)).filterMap
          (fun r => r.memory_mib)).sum)) = id := rfl
    rw [this, List.map_id]
    exact ((List.perm_insertionSort _ _).nodup_iff).mpr (List.nodup_dedup _)
  · intro t h1 h2 hnd s hs
    rw [bms_project_branch t h1 h2] at hs
    obtain rfl := Except.ok.inj hs
    exact hnd
  · intro t hna h1 h2 hnd s hs
    rw [bms_all_branch t hna h1 h2] at hs
    obtain rfl := Except.ok.inj hs
    exact hnd

/-- Witness for the amended C9: a component-only table whose summation
output has distinct timestamps. -/
theorem build_memory_series_one_per_timestamp_witness :
    ((groupSum [⟨some 0, some 2, none, some "a"⟩,
        ⟨some 0, some 4, none, some "b"⟩]).map Prod.fst).Nodup :=
  build_memory_series_one_per_timestamp.1
    ⟨true, false, true,
      [⟨some 0, some 2, none, some "a"⟩, ⟨some 0, some 4, none, some "b"⟩]⟩
    (by decide) (by decide) (by decide) _
    (bms_fallback_branch _ (by decide) (by decide) (by decide))

/-- C8 as stated is false: a tabular file that parses with the three
mandatory columns but zero data rows is accepted without error, although
neither encoding yields a single row (the markup parse fails on it). -/
theorem read_jmeter_jtl_accepts_rowless_csv :
    read_jmeter_jtl ⟨some ⟨true, true, true, true, []⟩, none⟩ = .ok ⟨true, []⟩ ∧
    (⟨some ⟨true, true, true, true, []⟩, none⟩ : JtlFile).xml = none ∧
    (⟨true, true, true, true, []⟩ : CsvFileData).rows.length = 0 :=
  ⟨by decide, rfl, rfl⟩

/-- C8 amended: the tabular encoding is used exactly when it parses and
yields the three mandatory columns (even with zero data rows); otherwise
the loader falls back to scanning the markup encoding for sample
elements, and raises a parse error if and only if the markup parse fails
or yields no sample element. -/
theorem read_jmeter_jtl_encoding_fallback :
    (∀ (f : JtlFile) (df : CsvFileData), f.csv = some df → mandatoryCols df = true →
      read_jmeter_jtl f = .ok ⟨df.hasResponseCode, df.rows⟩) ∧
    (∀ f : JtlFile,
      (f.csv = none ∨ ∃ df, f.csv = some df ∧ mandatoryCols df = false) →
      read_jmeter_jtl f = xmlFallback f) ∧
    (∀ f : JtlFile,
      (f.csv = none ∨ ∃ df, f.csv = some df ∧ mandatoryCols df = false) →
      f.xml = none → (read_jmeter_jtl f).isOk = false) ∧
    (∀ (f : JtlFile) (nodes : List XmlNode),
      (f.csv = none ∨ ∃ df, f.csv = some df ∧ mandatoryCols df = false) →
      f.xml = some nodes →
      ((read_jmeter_jtl f).isOk = false ↔
        nodes.filter (fun n => n.tag = "httpSample" ∨ n.tag = "sample") = [])) ∧
    (∀ (f : JtlFile) (nodes : List XmlNode),
      (f.csv = none ∨ ∃ df, f.csv = some df ∧ mandatoryCols df = false) →
      f.xml = some nodes →
      nodes.filter (fun n => n.tag = "httpSample" ∨ n.tag = "sample") ≠ [] →
      read_jmeter_jtl f = .ok ⟨true,
        (nodes.filter (fun n => n.tag = "httpSample" ∨ n.tag = "sample")).map xmlRow⟩) := by
  have hfall : ∀ f : JtlFile,
      (f.csv = none ∨ ∃ df, f.csv = some df ∧ mandatoryCols df = false) →
      read_jmeter_jtl f = xmlFallback f := by
    intro f hf
    rcases hf with hnone | ⟨df, hdf, hm⟩
    · rw [read_jmeter_jtl, hnone]
    · rw [read_jmeter_jtl, hdf]
      simp [hm]
  refine ⟨?_, hfall, ?_, ?_, ?_⟩
  · intro f df hdf hm
    rw [read_jmeter_jtl, hdf]
    simp [hm]
  · intro f hf hx
    rw [hfall f hf, xmlFallback, hx]
    rfl
  · intro f nodes hf hx
    rw [hfall f hf, xmlFallback, hx]
    dsimp only
    by_cases he : (nodes.filter (fun n => decide (n.tag = "httpSample" ∨ n.tag = "sample"))).isEmpty = true
    · rw [if_pos he]
      exact ⟨fun _ => List.isEmpty_iff.mp he, fun _ => rfl⟩
    · rw [if_neg he]
      constructor
      · intro hok
        simp [Except.isOk, Except.toBool] at hok
      · intro hnil
        exact absurd (List.isEmpty_iff.mpr hnil) he
  · intro f nodes hf hx hne
    rw [hfall f hf, xmlFallback, hx]
    simp only [List.isEmpty_iff]
    rw [if_neg (by simpa using hne)]

/-- Witness for the amended C8: a mandatory-column CSV parse is used
directly, and a CSV-unparseable file with one `sample` element falls back
to the scanned markup rows. -/
theorem read_jmeter_jtl_encoding_fallback_witness :
    read_jmeter_jtl ⟨some ⟨true, true, true, false, [⟨some 0, some 7, CellVal.s "true", none⟩]⟩, none⟩
      = .ok ⟨false, [⟨some 0, some 7, CellVal.s "true", none⟩]⟩ ∧
    read_jmeter_jtl ⟨none, some [⟨"sample", some "0", some "7", some "true", some "200", none, none⟩]⟩
      = .ok ⟨true, [xmlRow ⟨"sample", some "0", some "7", some "true", some "200", none, none⟩]⟩ :=
  ⟨read_jmeter_jtl_encoding_fallback.1
      ⟨some ⟨true, true, true, false, [⟨some 0, some 7, CellVal.s "true", none⟩]⟩, none⟩
      ⟨true, true, true, false, [⟨some 0, some 7, CellVal.s "true", none⟩]⟩ rfl rfl,
   by
    rw [read_jmeter_jtl_encoding_fallback.2.2.2.2
      ⟨none, some [⟨"sample", some "0", some "7", some "true", some "200", none, none⟩]⟩
      [⟨"sample", some "0", some "7", some "true", some "200", none, none⟩]
      (Or.inl rfl) rfl (by decide)]
    rfl⟩

lemma core_none {α : Type} [LinearOrderedField α] (sqrtF : ℚ → α) (Phi : α → α)
    (cfg : Config) (m : FilterMode) (tbl : JTable)
    (h : jT0 tbl.rows = none) :
    compute_latency_core sqrtF Phi cfg m tbl = .error "IndexError: no numeric timeStamp" := by
  rw [compute_latency_core, h]

lemma core_proj_total {α : Type} [LinearOrderedField α] (sqrtF : ℚ → α) (Phi : α → α)
    (cfg : Config) (m : FilterMode) (tbl : JTable) (t0 : ℚ)
    (h : jT0 tbl.rows = some t0) :
    Except.map (fun o => o.2.2.2) (compute_latency_core sqrtF Phi cfg m tbl) =
      .ok (totalErrors tbl) := by
  rw [compute_latency_core, h]
  dsimp only
  split_ifs <;> rfl

/-- C5: the reported total error count is the number of rows whose success
flag coerces to false, or whose status code is missing/unparseable, or
parses to ≥ 400; and the projection of `compute_latency_core` onto the
error count is identical across latency-filter modes (and warm-up
cutoffs) on the same input. -/
theorem total_errors_independent {α : Type} [LinearOrderedField α] :
    (∀ (sqrtF : ℚ → α) (Phi : α → α) (cfg : Config) (w₁ w₂ : ℚ) (m₁ m₂ : FilterMode)
      (tbl : JTable),
      Except.map (fun o => o.2.2.2)
        (compute_latency_core sqrtF Phi { cfg with warmupHours := w₁ } m₁ tbl) =
      Except.map (fun o => o.2.2.2)
        (compute_latency_core sqrtF Phi { cfg with warmupHours := w₂ } m₂ tbl)) ∧
    (∀ (sqrtF : ℚ → α) (Phi : α → α) (cfg : Config) (m : FilterMode) (tbl : JTable) out,
      compute_latency_core sqrtF Phi cfg m tbl = .ok out → out.2.2.2 = totalErrors tbl) ∧
    (∀ (hasRC : Bool) (r : JRow),
      errorRow hasRC r = true ↔
        (success_bool r = false ∨ resp_int hasRC r = none ∨
          ∃ k, resp_int hasRC r = some k ∧ 400 ≤ k)) := by
  refine ⟨?_, ?_, ?_⟩
  · intro sqrtF Phi cfg w₁ w₂ m₁ m₂ tbl
    cases hjt : jT0 tbl.rows with
    | none =>
      rw [core_none sqrtF Phi _ m₁ tbl hjt, core_none sqrtF Phi _ m₂ tbl hjt]
    | some t0 =>
      rw [core_proj_total sqrtF Phi _ m₁ tbl t0 hjt, core_proj_total sqrtF Phi _ m₂ tbl t0 hjt]
  · intro sqrtF Phi cfg m tbl out h
    cases hjt : jT0 tbl.rows with
    | none =>
      rw [core_none sqrtF Phi cfg m tbl hjt] at h
      exact absurd h (by simp)
    | some t0 =>
      have hp := core_proj_total sqrtF Phi cfg m tbl t0 hjt
      rw [h] at hp
      simpa [Except.map] using hp
  · intro hasRC r
    cases hs : success_bool r <;> rcases hr : resp_int hasRC r with _ | k <;>
      simp [errorRow, hs, hr]

/-- Witness for C5: on a one-row log whose request has success=false and
status 500, the ok-result of the pipeline carries exactly the error count
of the table. -/
theorem total_errors_independent_witness :
    ((none, none, none, 1) :
        Option ℚ × Option ℚ × Option ℚ × ℕ).2.2.2 =
      totalErrors ⟨true, [⟨some 0, some 7, CellVal.s "false", some "500"⟩]⟩ :=
  (total_errors_independent (α := ℚ)).2.1 (fun _ => 0) (fun _ => 1 / 2)
    ⟨0, 1, 2, 2, 1, 5⟩ .all ⟨true, [⟨some 0, some 7, CellVal.s "false", some "500"⟩]⟩
    (none, none, none, 1)
    (by
      have hjt : jT0 [⟨some 0, some 7, CellVal.s "false", some "500"⟩] = some 0 := by decide
      rw [compute_latency_core, hjt]
      dsimp only
      have hw : (warmRows ⟨0, 1, 2, 2, 1, 5⟩ true 0
          [⟨some 0, some 7, CellVal.s "false", some "500"⟩]).length < 10 := by
        have h1 := List.length_filter_le
          (fun r : LRow => decide ((⟨0, 1, 2, 2, 1, 5⟩ : Config).warmupHours ≤ r.th))
          (lrowsOf true 0 [⟨some 0, some 7, CellVal.s "false", some "500"⟩])
        have h2 : (lrowsOf true 0 [⟨some 0, some 7, CellVal.s "false", some "500"⟩]).length ≤ 1 := by
          simp only [lrowsOf]
          exact le_trans (List.length_filterMap_le _ _) (by decide)
        rw [warmRows]
        omega
      rw [if_pos hw]
      have ht : totalErrors ⟨true, [⟨some 0, some 7, CellVal.s "false", some "500"⟩]⟩ = 1 := by
        decide
      rw [ht])

/-- C10: a present but unparseable status code (such as the
float-formatted "200.0" pandas produces for a numeric column holding any
missing value) coerces to missing, so the request is counted in
`total_errors` even when its success flag is true. -/
theorem unparseable_status_counts_as_error :
    _to_int_or_nan (some "200.0") = none ∧
    (∀ (tbl : JTable) (r : JRow), tbl.hasResponseCode = true → r ∈ tbl.rows →
      _to_int_or_nan r.responseCode = none →
      errorRow tbl.hasResponseCode r = true ∧ 1 ≤ totalErrors tbl) := by
  refine ⟨by decide, ?_⟩
  intro tbl r hrc hmem hparse
  have herr : errorRow tbl.hasResponseCode r = true := by
    simp [errorRow, resp_int, hrc, hparse]
  refine ⟨herr, ?_⟩
  have : 0 < totalErrors tbl :=
    List.countP_pos_iff.mpr ⟨r, hmem, herr⟩
  omega

/-- Witness for C10: a single request with success=true and status cell
"200.0" is flagged as an error and makes the total error count 1. -/
theorem unparseable_status_counts_as_error_witness :
    errorRow true ⟨some 0, some 7, CellVal.s "true", some "200.0"⟩ = true ∧
    1 ≤ totalErrors ⟨true, [⟨some 0, some 7, CellVal.s "true", some "200.0"⟩]⟩ :=
  unparseable_status_counts_as_error.2
    ⟨true, [⟨some 0, some 7, CellVal.s "true", some "200.0"⟩]⟩
    ⟨some 0, some 7, CellVal.s "true", some "200.0"⟩
    rfl (by decide) (by decide)

lemma mem_validBins (cfg : Config) (jj : List LRow) (b : ℤ) :
    b ∈ validBins cfg jj ↔
      ((∃ r ∈ jj, binOf cfg r = b) ∧ cfg.minSamplesPerBin ≤ groupCount cfg jj b) := by
  rw [validBins, List.mem_filter]
  have hk : b ∈ binKeys cfg jj ↔ ∃ r ∈ jj, binOf cfg r = b := by
    rw [binKeys, (List.perm_insertionSort _ _).mem_iff, List.mem_dedup, List.mem_map]
  rw [hk]
  simp

/-- C6: a bin enters the retained p95 series iff its sample count reaches
the configured minimum (so a count of minimum−1 is dropped and a count of
exactly the minimum is retained), and when fewer than 5 bins are retained
the latency slope, significance and delta are all undefined while the
error count is still reported. -/
theorem bin_retention_threshold {α : Type} [LinearOrderedField α] :
    (∀ (cfg : Config) (jj : List LRow) (b : ℤ),
      b ∈ validBins cfg jj ↔
        ((∃ r ∈ jj, binOf cfg r = b) ∧ cfg.minSamplesPerBin ≤ groupCount cfg jj b)) ∧
    (∀ (cfg : Config) (jj : List LRow) (b : ℤ),
      groupCount cfg jj b + 1 = cfg.minSamplesPerBin → b ∉ validBins cfg jj) ∧
    (∀ (cfg : Config) (jj : List LRow) (b : ℤ),
      groupCount cfg jj b = cfg.minSamplesPerBin → (∃ r ∈ jj, binOf cfg r = b) →
      b ∈ validBins cfg jj) ∧
    (∀ (sqrtF : ℚ → α) (Phi : α → α) (cfg : Config) (m : FilterMode) (tbl : JTable) (t0 : ℚ),
      jT0 tbl.rows = some t0 →
      ¬ (warmRows cfg tbl.hasResponseCode t0 tbl.rows).length < 10 →
      ¬ (filterMode m (warmRows cfg tbl.hasResponseCode t0 tbl.rows)).length < 10 →
      (p95Series cfg (filterMode m (warmRows cfg tbl.hasResponseCode t0 tbl.rows))).length < 5 →
      compute_latency_core sqrtF Phi cfg m tbl = .ok (none, none, none, totalErrors tbl)) := by
  refine ⟨mem_validBins, ?_, ?_, ?_⟩
  · intro cfg jj b hcnt hmem
    obtain ⟨-, hle⟩ := (mem_validBins cfg jj b).mp hmem
    omega
  · intro cfg jj b hcnt hex
    exact (mem_validBins cfg jj b).mpr ⟨hex, le_of_eq hcnt.symm⟩
  · intro sqrtF Phi cfg m tbl t0 hjt h10 h10f h5
    rw [compute_latency_core, hjt]
    dsimp only
    rw [if_neg h10, if_neg h10f, if_pos h5]

lemma c6w_sort : sortJRows [⟨some 0, some 1, CellVal.s "true", some "200"⟩, ⟨some 0, some 1, CellVal.s "true", some "200"⟩, ⟨some 0, some 1, CellVal.s "true", some "200"⟩, ⟨some 0, some 1, CellVal.s "true", some "200"⟩, ⟨some 0, some 1, CellVal.s "true", some "200"⟩, ⟨some 0, some 1, CellVal.s "true", some "200"⟩, ⟨some 0, some 1, CellVal.s "true", some "200"⟩, ⟨some 0, some 1, CellVal.s "true", some "200"⟩, ⟨some 0, some 1, CellVal.s "true", some "200"⟩, ⟨some 0, some 1, CellVal.s "true", some "200"⟩] = [⟨some 0, some 1, CellVal.s "true", some "200"⟩, ⟨some 0, some 1, CellVal.s "true", some "200"⟩, ⟨some 0, some 1, CellVal.s "true", some "200"⟩, ⟨some 0, some 1, CellVal.s "true", some "200"⟩, ⟨some 0, some 1, CellVal.s "true", some "200"⟩, ⟨some 0, some 1, CellVal.s "true", some "200"⟩, ⟨some 0, some 1, CellVal.s "true", some "200"⟩, ⟨some 0, some 1, CellVal.s "true", some "200"⟩, ⟨some 0, some 1, CellVal.s "true", some "200"⟩, ⟨some 0, some 1, CellVal.s "true", some "200"⟩] := by decide

lemma c6w_lr : lrowsOf true 0 [⟨some 0, some 1, CellVal.s "true", some "200"⟩, ⟨some 0, some 1, CellVal.s "true", some "200"⟩, ⟨some 0, some 1, CellVal.s "true", some "200"⟩, ⟨some 0, some 1, CellVal.s "true", some "200"⟩, ⟨some 0, some 1, CellVal.s "true", some "200"⟩, ⟨some 0, some 1, CellVal.s "true", some "200"⟩, ⟨some 0, some 1, CellVal.s "true", some "200"⟩, ⟨some 0, some 1, CellVal.s "true", some "200"⟩, ⟨some 0, some 1, CellVal.s "true", some "200"⟩, ⟨some 0, some 1, CellVal.s "true", some "200"⟩] = ([⟨0, 1, true, some 200⟩, ⟨0, 1, true, some 200⟩, ⟨0, 1, true, some 200⟩, ⟨0, 1, true, some 200⟩, ⟨0, 1, true, some 200⟩, ⟨0, 1, true, some 200⟩, ⟨0, 1, true, some 200⟩, ⟨0, 1, true, some 200⟩, ⟨0, 1, true, some 200⟩, ⟨0, 1, true, some 200⟩] : List LRow) := by
  rw [lrowsOf, c6w_sort]
  norm_num [success_bool, resp_int, List.filterMap_cons,
    show _to_bool (CellVal.s "true") = true from by decide,
    show _to_int_or_nan (some "200") = some 200 from by decide]

lemma c6w_warm : warmRows ⟨0, 1, 2, 2, 1, 5⟩ true 0 [⟨some 0, some 1, CellVal.s "true", some "200"⟩, ⟨some 0, some 1, CellVal.s "true", some "200"⟩, ⟨some 0, some 1, CellVal.s "true", some "200"⟩, ⟨some 0, some 1, CellVal.s "true", some "200"⟩, ⟨some 0, some 1, CellVal.s "true", some "200"⟩, ⟨some 0, some 1, CellVal.s "true", some "200"⟩, ⟨some 0, some 1, CellVal.s "true", some "200"⟩, ⟨some 0, some 1, CellVal.s "true", some "200"⟩, ⟨some 0, some 1, CellVal.s "true", some "200"⟩, ⟨some 0, some 1, CellVal.s "true", some "200"⟩] = ([⟨0, 1, true, some 200⟩, ⟨0, 1, true, some 200⟩, ⟨0, 1, true, some 200⟩, ⟨0, 1, true, some 200⟩, ⟨0, 1, true, some 200⟩, ⟨0, 1, true, some 200⟩, ⟨0, 1, true, some 200⟩, ⟨0, 1, true, some 200⟩, ⟨0, 1, true, some 200⟩, ⟨0, 1, true, some 200⟩] : List LRow) := by
  rw [warmRows, c6w_lr]
  norm_num

lemma c6w_bin : binOf ⟨0, 1, 2, 2, 1, 5⟩ (⟨0, 1, true, some 200⟩ : LRow) = 0 := by
  rw [binOf]
  norm_num

lemma c6w_bg : binGroup ⟨0, 1, 2, 2, 1, 5⟩ ([⟨0, 1, true, some 200⟩, ⟨0, 1, true, some 200⟩, ⟨0, 1, true, some 200⟩, ⟨0, 1, true, some 200⟩, ⟨0, 1, true, some 200⟩, ⟨0, 1, true, some 200⟩, ⟨0, 1, true, some 200⟩, ⟨0, 1, true, some 200⟩, ⟨0, 1, true, some 200⟩, ⟨0, 1, true, some 200⟩] : List LRow) 0 = ([⟨0, 1, true, some 200⟩, ⟨0, 1, true, some 200⟩, ⟨0, 1, true, some 200⟩, ⟨0, 1, true, some 200⟩, ⟨0, 1, true, some 200⟩, ⟨0, 1, true, some 200⟩, ⟨0, 1, true, some 200⟩, ⟨0, 1, true, some 200⟩, ⟨0, 1, true, some 200⟩, ⟨0, 1, true, some 200⟩] : List LRow) := by
  rw [binGroup]
  norm_num [c6w_bin]

lemma c6w_bk : binKeys ⟨0, 1, 2, 2, 1, 5⟩ ([⟨0, 1, true, some 200⟩, ⟨0, 1, true, some 200⟩, ⟨0, 1, true, some 200⟩, ⟨0, 1, true, some 200⟩, ⟨0, 1, true, some 200⟩, ⟨0, 1, true, some 200⟩, ⟨0, 1, true, some 200⟩, ⟨0, 1, true, some 200⟩, ⟨0, 1, true, some 200⟩, ⟨0, 1, true, some 200⟩] : List LRow) = [0] := by
  rw [binKeys]
  have hmap : ([⟨0, 1, true, some 200⟩, ⟨0, 1, true, some 200⟩, ⟨0, 1, true, some 200⟩, ⟨0, 1, true, some 200⟩, ⟨0, 1, true, some 200⟩, ⟨0, 1, true, some 200⟩, ⟨0, 1, true, some 200⟩, ⟨0, 1, true, some 200⟩, ⟨0, 1, true, some 200⟩, ⟨0, 1, true, some 200⟩] : List LRow).map (binOf ⟨0, 1, 2, 2, 1, 5⟩) = [0, 0, 0, 0, 0, 0, 0, 0, 0, 0] := by
    norm_num [c6w_bin]
  rw [hmap]
  decide

lemma c6w_vb : validBins ⟨0, 1, 2, 2, 1, 5⟩ ([⟨0, 1, true, some 200⟩, ⟨0, 1, true, some 200⟩, ⟨0, 1, true, some 200⟩, ⟨0, 1, true, some 200⟩, ⟨0, 1, true, some 200⟩, ⟨0, 1, true, some 200⟩, ⟨0, 1, true, some 200⟩, ⟨0, 1, true, some 200⟩, ⟨0, 1, true, some 200⟩, ⟨0, 1, true, some 200⟩] : List LRow) = [0] := by
  rw [validBins, c6w_bk]
  have hgc : groupCount ⟨0, 1, 2, 2, 1, 5⟩ ([⟨0, 1, true, some 200⟩, ⟨0, 1, true, some 200⟩, ⟨0, 1, true, some 200⟩, ⟨0, 1, true, some 200⟩, ⟨0, 1, true, some 200⟩, ⟨0, 1, true, some 200⟩, ⟨0, 1, true, some 200⟩, ⟨0, 1, true, some 200⟩, ⟨0, 1, true, some 200⟩, ⟨0, 1, true, some 200⟩] : List LRow) 0 = 10 := by
    rw [groupCount, c6w_bg]
    decide
  norm_num [hgc]

theorem bin_retention_threshold_witness :
    compute_latency_core (α := ℚ) (fun _ => 0) (fun _ => 1 / 2) ⟨0, 1, 2, 2, 1, 5⟩ .all
      ⟨true, [⟨some 0, some 1, CellVal.s "true", some "200"⟩, ⟨some 0, some 1, CellVal.s "true", some "200"⟩, ⟨some 0, some 1, CellVal.s "true", some "200"⟩, ⟨some 0, some 1, CellVal.s "true", some "200"⟩, ⟨some 0, some 1, CellVal.s "true", some "200"⟩, ⟨some 0, some 1, CellVal.s "true", some "200"⟩, ⟨some 0, some 1, CellVal.s "true", some "200"⟩, ⟨some 0, some 1, CellVal.s "true", some "200"⟩, ⟨some 0, some 1, CellVal.s "true", some "200"⟩, ⟨some 0, some 1, CellVal.s "true", some "200"⟩]⟩ =
      .ok (none, none, none, totalErrors ⟨true, [⟨some 0, some 1, CellVal.s "true", some "200"⟩, ⟨some 0, some 1, CellVal.s "true", some "200"⟩, ⟨some 0, some 1, CellVal.s "true", some "200"⟩, ⟨some 0, some 1, CellVal.s "true", some "200"⟩, ⟨some 0, some 1, CellVal.s "true", some "200"⟩, ⟨some 0, some 1, CellVal.s "true", some "200"⟩, ⟨some 0, some 1, CellVal.s "true", some "200"⟩, ⟨some 0, some 1, CellVal.s "true", some "200"⟩, ⟨some 0, some 1, CellVal.s "true", some "200"⟩, ⟨some 0, some 1, CellVal.s "true", some "200"⟩]⟩) := by
  have hwa : filterMode .all (warmRows ⟨0, 1, 2, 2, 1, 5⟩ true 0 [⟨some 0, some 1, CellVal.s "true", some "200"⟩, ⟨some 0, some 1, CellVal.s "true", some "200"⟩, ⟨some 0, some 1, CellVal.s "true", some "200"⟩, ⟨some 0, some 1, CellVal.s "true", some "200"⟩, ⟨some 0, some 1, CellVal.s "true", some "200"⟩, ⟨some 0, some 1, CellVal.s "true", some "200"⟩, ⟨some 0, some 1, CellVal.s "true", some "200"⟩, ⟨some 0, some 1, CellVal.s "true", some "200"⟩, ⟨some 0, some 1, CellVal.s "true", some "200"⟩, ⟨some 0, some 1, CellVal.s "true", some "200"⟩]) = ([⟨0, 1, true, some 200⟩, ⟨0, 1, true, some 200⟩, ⟨0, 1, true, some 200⟩, ⟨0, 1, true, some 200⟩, ⟨0, 1, true, some 200⟩, ⟨0, 1, true, some 200⟩, ⟨0, 1, true, some 200⟩, ⟨0, 1, true, some 200⟩, ⟨0, 1, true, some 200⟩, ⟨0, 1, true, some 200⟩] : List LRow) := by
    rw [filterMode, c6w_warm]
  refine (bin_retention_threshold (α := ℚ)).2.2.2 (fun _ => 0) (fun _ => 1 / 2)
    ⟨0, 1, 2, 2, 1, 5⟩ .all ⟨true, [⟨some 0, some 1, CellVal.s "true", some "200"⟩, ⟨some 0, some 1, CellVal.s "true", some "200"⟩, ⟨some 0, some 1, CellVal.s "true", some "200"⟩, ⟨some 0, some 1, CellVal.s "true", some "200"⟩, ⟨some 0, some 1, CellVal.s "true", some "200"⟩, ⟨some 0, some 1, CellVal.s "true", some "200"⟩, ⟨some 0, some 1, CellVal.s "true", some "200"⟩, ⟨some 0, some 1, CellVal.s "true", some "200"⟩, ⟨some 0, some 1, CellVal.s "true", some "200"⟩, ⟨some 0, some 1, CellVal.s "true", some "200"⟩]⟩ 0 (by decide) ?_ ?_ ?_
  · rw [c6w_warm]
    decide
  · rw [hwa]
    decide
  · rw [hwa, p95Series, c6w_vb]
    simp

lemma cmm_short {α : Type} [LinearOrderedField α]
    (sqrtF : ℚ → α) (Phi : α → α) (cfg : Config) (mon : MonitorTable)
    (s0 : List (ℚ × ℚ)) (t0 m0 : ℚ) (rest : List (ℚ × ℚ))
    (hts : mon.hasTimestamp = true)
    (hbuild : build_memory_series
      { mon with rows :=
          mon.rows.insertionSort (fun r s => tsLeM r.timestamp s.timestamp = true) } = .ok s0)
    (hsort : s0.insertionSort (fun a b => a.1 ≤ b.1) = (t0, m0) :: rest)
    (hlen : ((((t0, m0) :: rest).map (fun p => ((p.1 - t0) / 1000 / 3600, p.2))).filter
      (fun p => cfg.warmupHours ≤ p.1)).length < 3) :
    compute_memory_metrics sqrtF Phi cfg mon = .ok (none, none, none) := by
  rw [compute_memory_metrics]
  rw [read_monitor_csv, if_pos hts]
  simp only [bind, Except.bind]
  rw [hbuild]
  dsimp only
  rw [hsort]
  dsimp only
  rw [if_pos hlen]
  rfl

lemma clm_warm_short {α : Type} [LinearOrderedField α]
    (sqrtF : ℚ → α) (Phi : α → α) (cfg : Config) (m : FilterMode) (tbl : JTable) (t0 : ℚ)
    (hjt : jT0 tbl.rows = some t0)
    (h10 : (warmRows cfg tbl.hasResponseCode t0 tbl.rows).length < 10) :
    compute_latency_core sqrtF Phi cfg m tbl = .ok (none, none, none, totalErrors tbl) := by
  rw [compute_latency_core, hjt]
  dsimp only
  rw [if_pos h10]

lemma clm_filter_short {α : Type} [LinearOrderedField α]
    (sqrtF : ℚ → α) (Phi : α → α) (cfg : Config) (m : FilterMode) (tbl : JTable) (t0 : ℚ)
    (hjt : jT0 tbl.rows = some t0)
    (h10 : ¬ (warmRows cfg tbl.hasResponseCode t0 tbl.rows).length < 10)
    (hf : (filterMode m (warmRows cfg tbl.hasResponseCode t0 tbl.rows)).length < 10) :
    compute_latency_core sqrtF Phi cfg m tbl = .ok (none, none, none, totalErrors tbl) := by
  rw [compute_latency_core, hjt]
  dsimp only
  rw [if_neg h10, if_pos hf]

/-- C7 as stated is false: zero-sample insufficient-data inputs do raise.
A readable monitor table with no rows yields an empty canonical series
and `series["timestamp"].iloc[0]` raises IndexError before the `< 3`
guard; a request log with no numeric timestamp makes
`...dropna().iloc[0]` raise IndexError before the `< 10` guards. -/
theorem insufficient_data_raises_on_empty :
    compute_memory_metrics (α := ℚ) (fun _ => 0) (fun _ => 1 / 2) ⟨1 / 2, 1, 2, 2, 1, 5⟩
      ⟨true, false, true, []⟩ = .error "IndexError: empty memory series" ∧
    compute_latency_core (α := ℚ) (fun _ => 0) (fun _ => 1 / 2) ⟨1 / 2, 1, 2, 2, 1, 5⟩
      .httpLt400 ⟨true, []⟩ = .error "IndexError: no numeric timeStamp" :=
  ⟨by decide, by decide⟩

/-- C7 amended: insufficient data does not surface as an exception once at
least one sample exists: with a readable monitor table whose canonical
series is nonempty, fewer than 3 samples after warm-up exclusion make
`compute_memory_metrics` return undefined slope, significance and delta
as a normal result; and, when the request log has at least one numeric
timestamp, a warm-up-filtered or mode-filtered request subset of fewer
than 10 rows makes the latency pipeline return undefined metrics while
still reporting the error count.  (A zero-sample canonical series or a
log with no numeric timestamp instead raises IndexError at `.iloc[0]`.) -/
theorem insufficient_data_returns_undefined {α : Type} [LinearOrderedField α] :
    (∀ (sqrtF : ℚ → α) (Phi : α → α) (cfg : Config) (mon : MonitorTable)
      (s0 : List (ℚ × ℚ)) (t0 m0 : ℚ) (rest : List (ℚ × ℚ)),
      mon.hasTimestamp = true →
      build_memory_series
        { mon with rows :=
            mon.rows.insertionSort (fun r s => tsLeM r.timestamp s.timestamp = true) } = .ok s0 →
      s0.insertionSort (fun a b => a.1 ≤ b.1) = (t0, m0) :: rest →
      ((((t0, m0) :: rest).map (fun p => ((p.1 - t0) / 1000 / 3600, p.2))).filter
        (fun p => cfg.warmupHours ≤ p.1)).length < 3 →
      compute_memory_metrics sqrtF Phi cfg mon = .ok (none, none, none)) ∧
    (∀ (sqrtF : ℚ → α) (Phi : α → α) (cfg : Config) (m : FilterMode) (tbl : JTable) (t0 : ℚ),
      jT0 tbl.rows = some t0 →
      (warmRows cfg tbl.hasResponseCode t0 tbl.rows).length < 10 →
      compute_latency_core sqrtF Phi cfg m tbl = .ok (none, none, none, totalErrors tbl)) ∧
    (∀ (sqrtF : ℚ → α) (Phi : α → α) (cfg : Config) (m : FilterMode) (tbl : JTable) (t0 : ℚ),
      jT0 tbl.rows = some t0 →
      ¬ (warmRows cfg tbl.hasResponseCode t0 tbl.rows).length < 10 →
      (filterMode m (warmRows cfg tbl.hasResponseCode t0 tbl.rows)).length < 10 →
      compute_latency_core sqrtF Phi cfg m tbl = .ok (none, none, none, totalErrors tbl)) :=
  ⟨fun sqrtF Phi cfg mon s0 t0 m0 rest hts hbuild hsort hlen =>
      cmm_short sqrtF Phi cfg mon s0 t0 m0 rest hts hbuild hsort hlen,
   fun sqrtF Phi cfg m tbl t0 hjt h10 =>
      clm_warm_short sqrtF Phi cfg m tbl t0 hjt h10,
   fun sqrtF Phi cfg m tbl t0 hjt h10 hf =>
      clm_filter_short sqrtF Phi cfg m tbl t0 hjt h10 hf⟩

lemma c7w_sort : sortJRows [⟨some 0, some 1, CellVal.s "false", some "500"⟩, ⟨some 0, some 1, CellVal.s "false", some "500"⟩, ⟨some 0, some 1, CellVal.s "false", some "500"⟩, ⟨some 0, some 1, CellVal.s "false", some "500"⟩, ⟨some 0, some 1, CellVal.s "false", some "500"⟩, ⟨some 0, some 1, CellVal.s "false", some "500"⟩, ⟨some 0, some 1, CellVal.s "false", some "500"⟩, ⟨some 0, some 1, CellVal.s "false", some "500"⟩, ⟨some 0, some 1, CellVal.s "false", some "500"⟩, ⟨some 0, some 1, CellVal.s "false", some "500"⟩] = [⟨some 0, some 1, CellVal.s "false", some "500"⟩, ⟨some 0, some 1, CellVal.s "false", some "500"⟩, ⟨some 0, some 1, CellVal.s "false", some "500"⟩, ⟨some 0, some 1, CellVal.s "false", some "500"⟩, ⟨some 0, some 1, CellVal.s "false", some "500"⟩, ⟨some 0, some 1, CellVal.s "false", some "500"⟩, ⟨some 0, some 1, CellVal.s "false", some "500"⟩, ⟨some 0, some 1, CellVal.s "false", some "500"⟩, ⟨some 0, some 1, CellVal.s "false", some "500"⟩, ⟨some 0, some 1, CellVal.s "false", some "500"⟩] := by decide

lemma c7w_lr : lrowsOf true 0 [⟨some 0, some 1, CellVal.s "false", some "500"⟩, ⟨some 0, some 1, CellVal.s "false", some "500"⟩, ⟨some 0, some 1, CellVal.s "false", some "500"⟩, ⟨some 0, some 1, CellVal.s "false", some "500"⟩, ⟨some 0, some 1, CellVal.s "false", some "500"⟩, ⟨some 0, some 1, CellVal.s "false", some "500"⟩, ⟨some 0, some 1, CellVal.s "false", some "500"⟩, ⟨some 0, some 1, CellVal.s "false", some "500"⟩, ⟨some 0, some 1, CellVal.s "false", some "500"⟩, ⟨some 0, some 1, CellVal.s "false", some "500"⟩] = ([⟨0, 1, false, some 500⟩, ⟨0, 1, false, some 500⟩, ⟨0, 1, false, some 500⟩, ⟨0, 1, false, some 500⟩, ⟨0, 1, false, some 500⟩, ⟨0, 1, false, some 500⟩, ⟨0, 1, false, some 500⟩, ⟨0, 1, false, some 500⟩, ⟨0, 1, false, some 500⟩, ⟨0, 1, false, some 500⟩] : List LRow) := by
  rw [lrowsOf, c7w_sort]
  norm_num [success_bool, resp_int, List.filterMap_cons,
    show _to_bool (CellVal.s "false") = false from by decide,
    show _to_int_or_nan (some "500") = some 500 from by decide]

lemma c7w_warm : warmRows ⟨0, 1, 2, 2, 1, 5⟩ true 0 [⟨some 0, some 1, CellVal.s "false", some "500"⟩, ⟨some 0, some 1, CellVal.s "false", some "500"⟩, ⟨some 0, some 1, CellVal.s "false", some "500"⟩, ⟨some 0, some 1, CellVal.s "false", some "500"⟩, ⟨some 0, some 1, CellVal.s "false", some "500"⟩, ⟨some 0, some 1, CellVal.s "false", some "500"⟩, ⟨some 0, some 1, CellVal.s "false", some "500"⟩, ⟨some 0, some 1, CellVal.s "false", some "500"⟩, ⟨some 0, some 1, CellVal.s "false", some "500"⟩, ⟨some 0, some 1, CellVal.s "false", some "500"⟩] = ([⟨0, 1, false, some 500⟩, ⟨0, 1, false, some 500⟩, ⟨0, 1, false, some 500⟩, ⟨0, 1, false, some 500⟩, ⟨0, 1, false, some 500⟩, ⟨0, 1, false, some 500⟩, ⟨0, 1, false, some 500⟩, ⟨0, 1, false, some 500⟩, ⟨0, 1, false, some 500⟩, ⟨0, 1, false, some 500⟩] : List LRow) := by
  rw [warmRows, c7w_lr]
  norm_num

lemma c7w_build : build_memory_series
    ⟨true, false, true,
      List.insertionSort (fun r s => tsLeM r.timestamp s.timestamp = true)
        [⟨some 0, some 5, none, none⟩]⟩ = .ok [(0, 5)] := by
  have hs : List.insertionSort
      (fun r s : MonitorRow => tsLeM r.timestamp s.timestamp = true)
      [⟨some 0, some 5, none, none⟩] = [⟨some 0, some 5, none, none⟩] := rfl
  rw [hs]
  rw [bms_fallback_branch _ (by simp) (by simp) rfl]
  rw [groupSum]
  have hk : (([⟨some 0, some 5, none, none⟩] : List MonitorRow).filterMap
      (fun r => r.timestamp)).dedup.insertionSort (· ≤ ·) = [0] := by decide
  rw [hk]
  norm_num [List.filterMap_cons, List.sum_cons, List.sum_nil]

/-- Witness for C7: a one-sample monitor table (0 points after warm-up), a
one-row request log (fewer than 10 rows after warm-up), and a ten-row
all-failed log under the success filter (fewer than 10 rows after
filtering) all return undefined metrics as ordinary values. -/
theorem insufficient_data_returns_undefined_witness :
    compute_memory_metrics (α := ℚ) (fun _ => 0) (fun _ => 1 / 2) ⟨1 / 2, 1, 2, 2, 1, 5⟩
      ⟨true, false, true, [⟨some 0, some 5, none, none⟩]⟩ = .ok (none, none, none) ∧
    compute_latency_core (α := ℚ) (fun _ => 0) (fun _ => 1 / 2) ⟨1 / 2, 1, 2, 2, 1, 5⟩
      .httpLt400 ⟨true, [⟨some 0, some 7, CellVal.s "true", some "200"⟩]⟩ =
      .ok (none, none, none,
        totalErrors ⟨true, [⟨some 0, some 7, CellVal.s "true", some "200"⟩]⟩) ∧
    compute_latency_core (α := ℚ) (fun _ => 0) (fun _ => 1 / 2) ⟨0, 1, 2, 2, 1, 5⟩
      .success ⟨true, [⟨some 0, some 1, CellVal.s "false", some "500"⟩, ⟨some 0, some 1, CellVal.s "false", some "500"⟩, ⟨some 0, some 1, CellVal.s "false", some "500"⟩, ⟨some 0, some 1, CellVal.s "false", some "500"⟩, ⟨some 0, some 1, CellVal.s "false", some "500"⟩, ⟨some 0, some 1, CellVal.s "false", some "500"⟩, ⟨some 0, some 1, CellVal.s "false", some "500"⟩, ⟨some 0, some 1, CellVal.s "false", some "500"⟩, ⟨some 0, some 1, CellVal.s "false", some "500"⟩, ⟨some 0, some 1, CellVal.s "false", some "500"⟩]⟩ =
      .ok (none, none, none, totalErrors ⟨true, [⟨some 0, some 1, CellVal.s "false", some "500"⟩, ⟨some 0, some 1, CellVal.s "false", some "500"⟩, ⟨some 0, some 1, CellVal.s "false", some "500"⟩, ⟨some 0, some 1, CellVal.s "false", some "500"⟩, ⟨some 0, some 1, CellVal.s "false", some "500"⟩, ⟨some 0, some 1, CellVal.s "false", some "500"⟩, ⟨some 0, some 1, CellVal.s "false", some "500"⟩, ⟨some 0, some 1, CellVal.s "false", some "500"⟩, ⟨some 0, some 1, CellVal.s "false", some "500"⟩, ⟨some 0, some 1, CellVal.s "false", some "500"⟩]⟩) := by
  refine ⟨?_, ?_, ?_⟩
  · exact (insufficient_data_returns_undefined (α := ℚ)).1 (fun _ => 0) (fun _ => 1 / 2)
      ⟨1 / 2, 1, 2, 2, 1, 5⟩ ⟨true, false, true, [⟨some 0, some 5, none, none⟩]⟩
      [(0, 5)] 0 5 [] rfl c7w_build (by decide) (by norm_num)
  · refine (insufficient_data_returns_undefined (α := ℚ)).2.1 (fun _ => 0) (fun _ => 1 / 2)
      ⟨1 / 2, 1, 2, 2, 1, 5⟩ .httpLt400
      ⟨true, [⟨some 0, some 7, CellVal.s "true", some "200"⟩]⟩ 0 (by decide) ?_
    have h1 := List.length_filter_le
      (fun r : LRow => decide ((⟨1 / 2, 1, 2, 2, 1, 5⟩ : Config).warmupHours ≤ r.th))
      (lrowsOf true 0 [⟨some 0, some 7, CellVal.s "true", some "200"⟩])
    have h2 : (lrowsOf true 0 [⟨some 0, some 7, CellVal.s "true", some "200"⟩]).length ≤ 1 := by
      simp only [lrowsOf]
      exact le_trans (List.length_filterMap_le _ _) (by decide)
    dsimp only
    rw [warmRows]
    omega
  · refine (insufficient_data_returns_undefined (α := ℚ)).2.2 (fun _ => 0) (fun _ => 1 / 2)
      ⟨0, 1, 2, 2, 1, 5⟩ .success ⟨true, [⟨some 0, some 1, CellVal.s "false", some "500"⟩, ⟨some 0, some 1, CellVal.s "false", some "500"⟩, ⟨some 0, some 1, CellVal.s "false", some "500"⟩, ⟨some 0, some 1, CellVal.s "false", some "500"⟩, ⟨some 0, some 1, CellVal.s "false", some "500"⟩, ⟨some 0, some 1, CellVal.s "false", some "500"⟩, ⟨some 0, some 1, CellVal.s "false", some "500"⟩, ⟨some 0, some 1, CellVal.s "false", some "500"⟩, ⟨some 0, some 1, CellVal.s "false", some "500"⟩, ⟨some 0, some 1, CellVal.s "false", some "500"⟩]⟩ 0 (by decide) ?_ ?_
    · dsimp only
      rw [c7w_warm]
      decide
    · dsimp only
      rw [filterMode, c7w_warm]
      decide

lemma c1_mem_good : compute_memory_metrics (α := ℚ) (fun _ => 0) (fun _ => 1 / 2)
    ⟨1 / 2, 1, 2, 2, 1, 5⟩ ⟨true, false, true, [⟨some 0, some 5, none, none⟩]⟩ =
    .ok (none, none, none) :=
  cmm_short (fun _ => 0) (fun _ => 1 / 2) ⟨1 / 2, 1, 2, 2, 1, 5⟩
    ⟨true, false, true, [⟨some 0, some 5, none, none⟩]⟩ [(0, 5)] 0 5 []
    rfl c7w_build (by decide) (by norm_num)

lemma c1_lat_good : compute_latency_metrics (α := ℚ) (fun _ => 0) (fun _ => 1 / 2)
    ⟨1 / 2, 1, 2, 2, 1, 5⟩ .httpLt400
    ⟨some ⟨true, true, true, true, [⟨some 0, some 7, CellVal.s "true", some "200"⟩]⟩, none⟩ =
    .ok (none, none, none, 0) := by
  rw [compute_latency_metrics]
  have hread : read_jmeter_jtl
      ⟨some ⟨true, true, true, true, [⟨some 0, some 7, CellVal.s "true", some "200"⟩]⟩, none⟩ =
      .ok ⟨true, [⟨some 0, some 7, CellVal.s "true", some "200"⟩]⟩ := by decide
  rw [hread]
  simp only [bind, Except.bind]
  have hcore : compute_latency_core (α := ℚ) (fun _ => 0) (fun _ => 1 / 2)
      ⟨1 / 2, 1, 2, 2, 1, 5⟩ .httpLt400 ⟨true, [⟨some 0, some 7, CellVal.s "true", some "200"⟩]⟩ =
      .ok (none, none, none,
        totalErrors ⟨true, [⟨some 0, some 7, CellVal.s "true", some "200"⟩]⟩) := by
    refine clm_warm_short (fun _ => 0) (fun _ => 1 / 2) ⟨1 / 2, 1, 2, 2, 1, 5⟩ .httpLt400
      ⟨true, [⟨some 0, some 7, CellVal.s "true", some "200"⟩]⟩ 0 (by decide) ?_
    have h1 := List.length_filter_le
      (fun r : LRow => decide ((⟨1 / 2, 1, 2, 2, 1, 5⟩ : Config).warmupHours ≤ r.th))
      (lrowsOf true 0 [⟨some 0, some 7, CellVal.s "true", some "200"⟩])
    have h2 : (lrowsOf true 0 [⟨some 0, some 7, CellVal.s "true", some "200"⟩]).length ≤ 1 := by
      simp only [lrowsOf]
      exact le_trans (List.length_filterMap_le _ _) (by decide)
    dsimp only
    rw [warmRows]
    omega
  rw [hcore]
  have ht : totalErrors ⟨true, [⟨some 0, some 7, CellVal.s "true", some "200"⟩]⟩ = 0 := by decide
  rw [ht]

/-- C1: per-run data errors do abort the whole batch, contrary to the
specified error-handling design.  With a first run whose monitor CSV
lacks the timestamp column and a perfectly readable second run, the
per-run loop propagates the schema error: no summary row is produced for
either run.  Alone, the second run produces its row normally. -/
theorem batch_aborts_on_per_run_data_error :
    processRuns (α := ℚ) (fun _ => 0) (fun _ => 1 / 2) ⟨1 / 2, 1, 2, 2, 1, 5⟩ .httpLt400
      [⟨"app1", ⟨false, false, true, [⟨some 0, some 5, none, none⟩]⟩,
        ⟨some ⟨true, true, true, true, [⟨some 0, some 7, CellVal.s "true", some "200"⟩]⟩, none⟩⟩,
       ⟨"app2", ⟨true, false, true, [⟨some 0, some 5, none, none⟩]⟩,
        ⟨some ⟨true, true, true, true, [⟨some 0, some 7, CellVal.s "true", some "200"⟩]⟩, none⟩⟩] =
      .error "missing timestamp column" ∧
    processRuns (α := ℚ) (fun _ => 0) (fun _ => 1 / 2) ⟨1 / 2, 1, 2, 2, 1, 5⟩ .httpLt400
      [⟨"app2", ⟨true, false, true, [⟨some 0, some 5, none, none⟩]⟩,
        ⟨some ⟨true, true, true, true, [⟨some 0, some 7, CellVal.s "true", some "200"⟩]⟩, none⟩⟩] =
      .ok [⟨"app2", none, none, none, none, none, none, 0⟩] := by
  constructor
  · decide
  · rw [processRuns]
    rw [c1_mem_good]
    simp only [bind, Except.bind]
    rw [c1_lat_good]
    rw [processRuns]
    rfl

end Summarize
